import Mathlib

/-!
Verification of the PaperCrypt document codec against its specification.

The development shallowly embeds the two commands under scrutiny:

* the version-sniffing and dispatch logic of the `qr` command
  (`qrCmd.RunE`, together with the helper struct types `versionContainer`,
  `dataContainer` and `dataContainerV1`), and
* the straight-line control flow of the `generate` command
  (`generateCmd.Run`).

External collaborators (the gopenpgp encryption primitive, the Go time
layouts, the Go json codec used by `generate`, the version-specific
document deserializers of the `internal` package) are passed in as explicit
function parameters, exactly as the specification treats them: opaque
primitives that either produce a value or fail.

JSON payloads handed to the `qr` command are modelled as an `Option Json`
value: `none` stands for bytes that are not valid JSON, `some j` for the
parsed value.  The behaviour of `json.Unmarshal` on the three small struct
types is modelled field-accurately: unmarshalling succeeds on any JSON
object (a missing field is left at its zero value), keys are matched
case-insensitively, later duplicate occurrences overwrite earlier ones, a
null value is a no-op, and a wrongly-typed occurrence is an error.
-/

namespace PaperCrypt

/-- JSON values, as the Go json package parses them.  Object fields keep
their textual order and may repeat a name, mirroring the bytes of a
payload faithfully. -/
inductive Json where
  | null
  | bool (b : Bool)
  | num (n : Int)
  | str (s : String)
  | arr (elems : List Json)
  | obj (fields : List (String × Json))

/-- Whether a JSON value is a string. -/
def Json.isStr : Json → Bool
  | .str _ => true
  | _ => false

/-- ASCII lower-casing of one character.  The field names matched by the
sniffer ("Version", "Data") are ASCII, for which this agrees with the
Unicode folding used by the Go json field matcher. -/
def asciiLower (c : Char) : Char :=
  if c.toNat ≥ 65 ∧ c.toNat ≤ 90 then Char.ofNat (c.toNat + 32) else c

/-- Case-insensitive key comparison, as the Go json field matcher applies
to a struct with a single field. -/
def eqFold (a b : String) : Bool :=
  a.data.map asciiLower == b.data.map asciiLower

/-- Decoding of a lone string-typed struct field named `name` from the
field list of a JSON object, as Go json.Unmarshal performs it: keys are
matched case-insensitively, a later occurrence overwrites an earlier one,
a null occurrence is a no-op, and an occurrence of any other non-string
value is a decoding error.  `init` is the value already stored in the
field, so that merging into an already partly-filled struct is modelled. -/
def decodeStringField (name : String) (init : String) :
    List (String × Json) → Option String
  | [] => some init
  | (k, v) :: rest =>
    if eqFold k name then
      match v with
      | .null => decodeStringField name init rest
      | .str s => decodeStringField name s rest
      | _ => none
    else decodeStringField name init rest

/-- Go json.Unmarshal of a payload into `versionContainer` (a struct with
the single string field `Version`); on success the resulting field value
is returned.  Unmarshalling succeeds on any JSON object, with a missing
field left at its zero value "", and on null; it fails on every other
top-level value and on a wrongly-typed Version occurrence. -/
def unmarshalVersionContainer : Json → Option String
  | .null => some ""
  | .obj fs => decodeStringField "Version" "" fs
  | _ => none

/-- Go json.Unmarshal of a payload into `dataContainer` (a struct with the
single string field `Data`), with the same semantics. -/
def unmarshalDataContainer : Json → Option String
  | .null => some ""
  | .obj fs => decodeStringField "Data" "" fs
  | _ => none

/-- Decoding of the outer `Data` field of `dataContainerV1`, whose type is
the struct `dataContainer`: an object occurrence is merged into the value
decoded so far, a null occurrence is a no-op, anything else is an error. -/
def decodeDataContainerField (init : String) :
    List (String × Json) → Option String
  | [] => some init
  | (k, v) :: rest =>
    if eqFold k "Data" then
      match v with
      | .null => decodeDataContainerField init rest
      | .obj gs =>
        match decodeStringField "Data" init gs with
        | some s => decodeDataContainerField s rest
        | none => none
      | _ => none
    else decodeDataContainerField init rest

/-- Go json.Unmarshal of a payload into `dataContainerV1` (a struct whose
single field `Data` is itself a `dataContainer`); on success the inner
`Data.Data` string is returned. -/
def unmarshalDataContainerV1 : Json → Option String
  | .null => some ""
  | .obj fs => decodeDataContainerField "" fs
  | _ => none

/-- The numeric value of an ASCII decimal digit. -/
def digitVal (c : Char) : Option Nat :=
  if c.toNat ≥ 48 ∧ c.toNat ≤ 57 then some (c.toNat - 48) else none

/-- Accumulating base-10 digit parser; fails on any non-digit. -/
def parseDigitsAux (acc : Nat) : List Char → Option Nat
  | [] => some acc
  | c :: rest =>
    match digitVal c with
    | some d => parseDigitsAux (acc * 10 + d) rest
    | none => none

/-- Non-empty run of base-10 digits. -/
def parseDigitsNE : List Char → Option Nat
  | [] => none
  | cs => parseDigitsAux 0 cs

/-- The 32-bit signed range check that strconv.ParseInt applies for
bitSize 32: out-of-range values are an error. -/
def int32Check (v : Int) : Option Int :=
  if -2147483648 ≤ v ∧ v ≤ 2147483647 then some v else none

/-- strconv.ParseInt(s, 10, 32): an optional sign, a non-empty run of
decimal digits, and a 32-bit signed range check. -/
def parseIntDec32 : List Char → Option Int
  | '+' :: r => (parseDigitsNE r).bind fun n => int32Check n
  | '-' :: r => (parseDigitsNE r).bind fun n => int32Check (-(n : Int))
  | cs => (parseDigitsNE cs).bind fun n => int32Check n

/-- strings.Split(s, ".")[0]: the prefix of `s` before the first dot. -/
def majorComponent (s : String) : List Char :=
  s.data.takeWhile fun c => c ≠ '.'

/-- strings.TrimPrefix(·, "v"): one leading lower-case v is removed. -/
def trimLeadingV : List Char → List Char
  | 'v' :: r => r
  | cs => cs

/-- The major-version parse of qrCmd.RunE line 166:
ParseInt(TrimPrefix(Split(version, ".")[0], "v"), 10, 32). -/
def parseMajor (s : String) : Option Int :=
  parseIntDec32 (trimLeadingV (majorComponent s))

/-- uint32(v): conversion of the parsed 64-bit value to uint32, i.e.
reduction modulo 2^32 with two-sided wrap-around. -/
def uint32Of (v : Int) : Nat :=
  (v % 4294967296).toNat

/-- The two error messages the deserializing part of qrCmd.RunE can
return: `deserialize` is the "error deserializing data" failure (the
UnrecognizedDocumentFormat of the specification, also used when a chosen
deserializer fails), `parseVersion` is the "error parsing version"
failure. -/
inductive SniffErr where
  | deserialize
  | parseVersion
deriving DecidableEq

/-- The version sniffer of qrCmd.RunE (lines 149 to 171) on a parsed JSON
payload: first json.Unmarshal into `versionContainer`; on success the
Version field must parse as an integer major version, which is the
classification; only when that unmarshal itself fails are the flat `Data`
shape (major version 2) and then the nested `Data.Data` shape (major
version 1) attempted; when all three unmarshals fail the payload is
rejected. -/
def sniffJson (j : Json) : Except SniffErr Nat :=
  match unmarshalVersionContainer j with
  | some vs =>
    match parseMajor vs with
    | none => .error .parseVersion
    | some v => .ok (uint32Of v)
  | none =>
    match unmarshalDataContainer j with
    | some _ => .ok 2
    | none =>
      match unmarshalDataContainerV1 j with
      | some _ => .ok 1
      | none => .error .deserialize

/-- The version sniffer on raw payload bytes: bytes that are not valid
JSON fail all three unmarshal attempts. -/
def sniff : Option Json → Except SniffErr Nat
  | none => .error .deserialize
  | some j => sniffJson j

/-- A failure of a version-specific deserializer is joined into the
"error deserializing data" failure (qrCmd.RunE lines 178, 186, 192). -/
def liftDeser : Option (List Nat) → Except SniffErr (List Nat)
  | some out => .ok out
  | none => .error .deserialize

/-- The deserializing tail of qrCmd.RunE on a parsed payload: sniff, then
dispatch on the major version.  `deserV1` and `deserV2` stand for the
version-specific deserializers (unmarshal into internal.PaperCryptV1 or
internal.PaperCrypt followed by GetText), passed in as opaque primitives.
For a major version other than 1 and 2 no switch case applies; the outer
error variable is still nil there (the ParseInt error on line 166 shadows
it), so the command writes the nil output and reports success. -/
def qrDecodeJson (deserV1 deserV2 : Json → Option (List Nat)) (j : Json) :
    Except SniffErr (List Nat) :=
  match sniffJson j with
  | .error e => .error e
  | .ok n =>
    if n = 1 then liftDeser (deserV1 j)
    else if n = 2 then liftDeser (deserV2 j)
    else .ok []

/-- The deserializing tail of qrCmd.RunE on raw payload bytes. -/
def qrDecode (deserV1 deserV2 : Json → Option (List Nat)) :
    Option Json → Except SniffErr (List Nat)
  | none => .error .deserialize
  | some j => qrDecodeJson deserV1 deserV2 j

/-- Sniffing rule 1 in the words of the specification: a top-level
version field is present (as the version-container unmarshal sees it) and
parses as an integer major version.  A missing field yields the empty
string, which never parses, so unmarshal success plus a parseable result
is exactly rule 1. -/
def specHasParseableVersion (j : Json) : Bool :=
  match unmarshalVersionContainer j with
  | some s => (parseMajor s).isSome
  | none => false

/-- Sniffing rule 2 in the words of the specification: a flat top-level
`Data` field directly holding a string (generation-2 shape). -/
def specHasFlatData : Json → Bool
  | .obj fs => fs.any fun kv => eqFold kv.1 "Data" && kv.2.isStr
  | _ => false

/-- Sniffing rule 3 in the words of the specification: a nested
`Data.Data` field holding a string (generation-1 shape). -/
def specHasNestedData : Json → Bool
  | .obj fs =>
    fs.any fun kv =>
      eqFold kv.1 "Data" &&
        (match kv.2 with
         | .obj gs => gs.any fun kv2 => eqFold kv2.1 "Data" && kv2.2.isStr
         | _ => false)
  | _ => false

/-! ## The generate command (src/cmd/generate.go, generateCmd.Run)

The command is a straight-line script; the embedding mirrors its steps in
source order and records the externally visible actions in a trace of
effects, so that ordering claims (what has and has not happened by the
time the command exits) become statements about the trace. -/

/-- The externally visible actions of generateCmd.Run, in the order the
code can perform them: the notice printed when an existing output file is
overridden (step 0), opening and reading the input file (step 3), the
passphrase prompt on standard input (step 4), the call to the encryption
primitive carrying the plaintext actually encrypted (step 5), opening the
output file, with its truncation mode (O_CREATE|O_WRONLY|O_TRUNC), the
construction of the document via util.NewPaperCrypt carrying the serial
number and timestamp used, and the write of the rendered bytes. -/
inductive GEffect where
  | overrideNotice
  | readInput
  | promptPassphrase
  | encryptData (plaintext : List Nat)
  | openOutput (truncate : Bool)
  | mkDocument (serial : String) (timestamp : Nat)
  | writeOutput (content : List Nat)
deriving DecidableEq

/-- How generateCmd.Run ends: normal completion ("Done!") or os.Exit with
the given code. -/
inductive GenOutcome where
  | done
  | exit (code : Nat)
deriving DecidableEq

/-- Modelled from the spec: the fixed human-friendly serial alphabet of
section 4.2 (util.GenerateSerial is not under src/).  It excludes the
visually confusable characters 0, O, 1, I, l. -/
def serialAlphabet : List Char :=
  ['2', '3', '4', '5', '6', '7', '8', '9',
   'A', 'B', 'C', 'D', 'E', 'F', 'G', 'H', 'J', 'K', 'M', 'N',
   'P', 'Q', 'R', 'S', 'T', 'U', 'V', 'W', 'X', 'Y', 'Z']

/-- Modelled from the spec: util.GenerateSerial (section 4.2), which is
not under src/.  It draws `len` characters from the fixed alphabet using
the cryptographic random source; when the source is unavailable it fails
(RandomSourceUnavailable) and never degrades to a weaker source.  The
random source is modelled as `Option (Nat → Nat)`: `none` when entropy
cannot be read, otherwise a stream of random values. -/
def generateSerial (len : Nat) (entropy : Option (Nat → Nat)) :
    Except Unit String :=
  match entropy with
  | none => .error ()
  | some r =>
    .ok (String.mk ((List.range len).map fun i =>
      serialAlphabet.getD (r i % serialAlphabet.length) 'A'))

/-- Step 1 of generateCmd.Run: a missing serial number is generated with
length 6; a user-supplied one is used unchanged. -/
def chooseSerial (provided : String) (entropy : Option (Nat → Nat)) :
    Except Unit String :=
  if provided = "" then generateSerial 6 entropy else .ok provided

/-- Step 2 of generateCmd.Run: an empty date flag means time.Now(); a
supplied date is tried against the three accepted layouts in order, and
when every layout fails the command aborts.  The three time.Parse layouts
are external primitives, supplied as the parameters `p1`, `p2`, `p3`. -/
def computeTimestamp (now : Nat) (p1 p2 p3 : String → Option Nat)
    (date : String) : Except Unit Nat :=
  if date = "" then .ok now
  else
    match p1 date with
    | some t => .ok t
    | none =>
      match p2 date with
      | some t => .ok t
      | none =>
        match p3 date with
        | some t => .ok t
        | none => .error ()

/-- strings.ReplaceAll(·, carriage-return, "") followed by
strings.ReplaceAll(·, newline, ""): the passphrase cleaning of step 4. -/
def stripCRLF (s : String) : String :=
  String.mk (s.data.filter fun c => c != '\r' && c != '\n')

/-- The environment of one invocation of generateCmd.Run: the flag values
and the behaviour of every external collaborator the command consults, in
the representation the embedding uses.  The decoded JSON value of the
input file (a Go map) is opaque to the command, so it is represented as
an abstract `List Nat` token; `decodeJson` and `encodeJson` stand for the
Go json decoder and the minimizing re-encoder, `encryptF` for the
gopenpgp password encryption, `render` for GetText/GetPDF of the document
built by util.NewPaperCrypt, all external to src/cmd/generate.go. -/
structure GenEnv where
  outFileExists : Bool
  force : Bool
  serialNumber : String
  entropy : Option (Nat → Nat)
  date : String
  now : Nat
  p1 : String → Option Nat
  p2 : String → Option Nat
  p3 : String → Option Nat
  inFile : Option (List Nat)
  decodeJson : List Nat → Option (List Nat)
  encodeJson : List Nat → Option (List Nat)
  pass1 : Option String
  pass2 : Option String
  encryptF : String → List Nat → Option (List Nat)
  outFileName : String
  openOutOk : Bool
  render : List Nat → Option (List Nat)
  writeOk : Bool

/-- generateCmd.Run, step for step: the existence check on the output
file (exit unless --force), serial-number generation, date parsing,
reading and JSON-decoding the input file and re-encoding it minimized,
the double passphrase prompt with the mismatch check, encryption of the
minimized plaintext, opening of the output file (standard output when the
name is empty or "-", otherwise with truncation), document construction,
rendering, and the final write.  Every error path is an exit with code 1,
as in the source. -/
def generateRun (env : GenEnv) : List GEffect × GenOutcome :=
  if env.outFileExists && !env.force then ([], .exit 1)
  else
    let acc0 : List GEffect :=
      if env.outFileExists then [GEffect.overrideNotice] else []
    match chooseSerial env.serialNumber env.entropy with
    | .error _ => (acc0, .exit 1)
    | .ok serial =>
      match computeTimestamp env.now env.p1 env.p2 env.p3 env.date with
      | .error _ => (acc0, .exit 1)
      | .ok ts =>
        let acc1 := acc0 ++ [GEffect.readInput]
        match env.inFile with
        | none => (acc1, .exit 1)
        | some raw =>
          match env.decodeJson raw with
          | none => (acc1, .exit 1)
          | some m =>
            match env.encodeJson m with
            | none => (acc1, .exit 1)
            | some minimal =>
              let acc2 := acc1 ++ [GEffect.promptPassphrase]
              match env.pass1 with
              | none => (acc2, .exit 1)
              | some p =>
                match env.pass2 with
                | none => (acc2, .exit 1)
                | some q =>
                  if p ≠ q then (acc2, .exit 1)
                  else
                    let acc3 := acc2 ++ [GEffect.encryptData minimal]
                    match env.encryptF (stripCRLF p) minimal with
                    | none => (acc3, .exit 1)
                    | some cipher =>
                      let toStdout : Bool :=
                        env.outFileName == "" || env.outFileName == "-"
                      let acc4 :=
                        if toStdout then acc3
                        else acc3 ++ [GEffect.openOutput true]
                      if !toStdout && !env.openOutOk then (acc4, .exit 1)
                      else
                        let acc5 := acc4 ++ [GEffect.mkDocument serial ts]
                        match env.render cipher with
                        | none => (acc5, .exit 1)
                        | some text =>
                          let acc6 := acc5 ++ [GEffect.writeOutput text]
                          if env.writeOk then (acc6, .done)
                          else (acc6, .exit 1)

/-! ## Concrete environments used by the witness theorems -/

/-- A generate environment in which every step succeeds. -/
def envOk : GenEnv where
  outFileExists := false
  force := false
  serialNumber := "SERIAL"
  entropy := some fun _ => 0
  date := ""
  now := 99
  p1 := fun _ => none
  p2 := fun _ => none
  p3 := fun _ => none
  inFile := some [10, 11]
  decodeJson := fun _ => some [1]
  encodeJson := fun _ => some [2, 2]
  pass1 := some "pw"
  pass2 := some "pw"
  encryptF := fun _ _ => some [3]
  outFileName := "out.txt"
  openOutOk := true
  render := fun _ => some [9, 9, 9]
  writeOk := true

/-- envOk with a date that no accepted layout parses. -/
def envBadDate : GenEnv := { envOk with date := "not a date" }

/-- envOk with no serial supplied and an unreadable random source. -/
def envNoEntropy : GenEnv := { envOk with serialNumber := "", entropy := none }

/-- envOk with two differing passphrases. -/
def envPassMismatch : GenEnv :=
  { envOk with pass1 := some "pw one", pass2 := some "pw two" }

/-- envOk with input bytes the JSON decoder rejects. -/
def envBadJson : GenEnv := { envOk with decodeJson := fun _ => none }

/-- envOk with an already existing output file and the force flag set. -/
def envForced : GenEnv := { envOk with outFileExists := true, force := true }

/-! ## Helper lemmas -/

/-- A serial produced by the modelled generator has the requested length. -/
theorem generateSerial_ok_length (e : Option (Nat → Nat)) (s : String)
    (h : generateSerial 6 e = Except.ok s) : s.length = 6 := by
  cases e with
  | none => exact absurd h (by simp [generateSerial])
  | some r =>
    simp only [generateSerial, Except.ok.injEq] at h
    subst h
    simp [String.length]

/-! ## Claims about the qr version sniffer -/

/-- Claim C1: a QR payload that is a JSON object whose Version field
unmarshals to a string with a parseable integer major component, and
which also carries a generation-1-shaped nested Data.Data body, is
classified by the explicit Version field alone, and the qr command
dispatches to the deserializer of that major version; the structural
shape never influences the classification. -/
theorem claim1_version_field_wins_over_shape
    (fs : List (String × Json)) (s t : String) (v : Int)
    (deserV1 deserV2 : Json → Option (List Nat))
    (hver : unmarshalVersionContainer (Json.obj fs) = some s)
    (hmaj : parseMajor s = some v)
    (_hshape : unmarshalDataContainerV1 (Json.obj fs) = some t) :
    sniffJson (Json.obj fs) = Except.ok (uint32Of v) ∧
    (uint32Of v = 1 →
      qrDecodeJson deserV1 deserV2 (Json.obj fs) =
        liftDeser (deserV1 (Json.obj fs))) ∧
    (uint32Of v = 2 →
      qrDecodeJson deserV1 deserV2 (Json.obj fs) =
        liftDeser (deserV2 (Json.obj fs))) := by
  refine ⟨?_, ?_, ?_⟩
  · simp [sniffJson, hver, hmaj]
  · intro h1
    simp [qrDecodeJson, sniffJson, hver, hmaj, h1]
  · intro h2
    simp [qrDecodeJson, sniffJson, hver, hmaj, h2]

/-- Concrete instance of claim C1: a payload with Version "1.2.0" and a
generation-1-shaped body is dispatched to the version-1 deserializer,
even though its shape alone would also match generation 1 by fallback,
and even when the version-2 deserializer would succeed on it. -/
theorem claim1_version_field_wins_over_shape_witness :
    sniffJson (Json.obj [("Version", Json.str "1.2.0"),
      ("Data", Json.obj [("Data", Json.str "QQ")])]) = Except.ok 1 ∧
    qrDecodeJson (fun _ => some [7]) (fun _ => some [8])
      (Json.obj [("Version", Json.str "1.2.0"),
        ("Data", Json.obj [("Data", Json.str "QQ")])]) = Except.ok [7] := by
  have h := claim1_version_field_wins_over_shape
    [("Version", Json.str "1.2.0"), ("Data", Json.obj [("Data", Json.str "QQ")])]
    "1.2.0" "QQ" 1 (fun _ => some [7]) (fun _ => some [8]) rfl rfl rfl
  have hu : uint32Of 1 = 1 := rfl
  refine ⟨?_, ?_⟩
  · rw [hu] at h
    exact h.1
  · rw [h.2.1 hu]
    rfl

/-- Claim C2 evaluated on its failing input: the payload with a flat
top-level Data string field and no version field is not classified as
major version 2; the sniffer rejects it with the version-parse error,
never reaching the flat-Data rule, even when both version deserializers
would succeed on anything.  The versionContainer unmarshal succeeds on
every JSON object, so for a version-less object the fallback chain of
rules 2 and 3 is unreachable. -/
theorem claim2_flat_data_without_version_is_rejected :
    qrDecodeJson (fun _ => some [1]) (fun _ => some [2])
      (Json.obj [("Data", Json.str "QUJD")]) =
      Except.error SniffErr.parseVersion := rfl

/-- Claim C3 evaluated on its failing input: a generation-1-shaped payload
(nested Data.Data string) carrying no version field does not decode; the
qr command fails with the version-parse error instead of classifying it
as major version 1, even when both version deserializers would succeed on
anything. -/
theorem claim3_legacy_payload_without_version_is_rejected :
    qrDecodeJson (fun _ => some [1]) (fun _ => some [2])
      (Json.obj [("Data", Json.obj [("Data", Json.str "QUJD")])]) =
      Except.error SniffErr.parseVersion := rfl

/-- Counterexample to claim C4 as stated: the empty JSON mapping matches
none of the three sniffing rules, yet the qr command does not fail with
the unrecognized-document-format error ("error deserializing data"); it
fails with the distinct version-parse error, because the versionContainer
unmarshal succeeds on the empty object and the empty Version string then
fails to parse. -/
theorem claim4_empty_mapping_error_is_not_unrecognized_format :
    qrDecodeJson (fun _ => none) (fun _ => none) (Json.obj []) =
      Except.error SniffErr.parseVersion ∧
    SniffErr.parseVersion ≠ SniffErr.deserialize := by
  exact ⟨rfl, by decide⟩

/-- Claim C4 as amended: a payload matching none of the three sniffing
rules always makes the qr command fail with an error — never success and
never a partially-populated document — provided each version deserializer
rejects payloads that lack the required fields of its generation; the
unrecognized-document-format error itself is produced when the payload is
not a JSON value the struct unmarshals accept, while a version-less JSON
object (such as the empty mapping) fails with the version-parse error
instead. -/
theorem claim4_unmatched_payload_always_fails
    (deserV1 deserV2 : Json → Option (List Nat)) (data : Option Json)
    (hd1 : ∀ j, specHasNestedData j = false → deserV1 j = none)
    (hd2 : ∀ j, specHasFlatData j = false → deserV2 j = none)
    (hv : ∀ j, data = some j → specHasParseableVersion j = false)
    (hf : ∀ j, data = some j → specHasFlatData j = false)
    (hn : ∀ j, data = some j → specHasNestedData j = false) :
    (∃ e, qrDecode deserV1 deserV2 data = Except.error e) ∧
    (data = none →
      qrDecode deserV1 deserV2 data = Except.error SniffErr.deserialize) := by
  constructor
  · cases data with
    | none => exact ⟨SniffErr.deserialize, rfl⟩
    | some j =>
      have hv' := hv j rfl
      have hf' := hf j rfl
      have hn' := hn j rfl
      show ∃ e, qrDecodeJson deserV1 deserV2 j = Except.error e
      cases hc : unmarshalVersionContainer j with
      | some s =>
        have hps : parseMajor s = none := by
          simp only [specHasParseableVersion, hc] at hv'
          exact Option.not_isSome_iff_eq_none.mp (by simp [hv'])
        exact ⟨SniffErr.parseVersion, by simp [qrDecodeJson, sniffJson, hc, hps]⟩
      | none =>
        cases hc2 : unmarshalDataContainer j with
        | some u =>
          have hdd : deserV2 j = none := hd2 j hf'
          exact ⟨SniffErr.deserialize,
            by simp [qrDecodeJson, sniffJson, hc, hc2, hdd, liftDeser]⟩
        | none =>
          cases hc3 : unmarshalDataContainerV1 j with
          | some u =>
            have hdd : deserV1 j = none := hd1 j hn'
            exact ⟨SniffErr.deserialize,
              by simp [qrDecodeJson, sniffJson, hc, hc2, hc3, hdd, liftDeser]⟩
          | none =>
            exact ⟨SniffErr.deserialize,
              by simp [qrDecodeJson, sniffJson, hc, hc2, hc3]⟩
  · intro h
    subst h
    rfl

/-- Concrete instance of the amended claim C4: the empty mapping fails,
for deserializers that reject payloads lacking their generation's
fields. -/
theorem claim4_unmatched_payload_always_fails_witness :
    ∃ e, qrDecode (fun _ => none) (fun _ => none) (some (Json.obj [])) =
      Except.error e := by
  have h := claim4_unmatched_payload_always_fails
    (fun _ => none) (fun _ => none) (some (Json.obj []))
    (fun _ _ => rfl) (fun _ _ => rfl)
    (fun j hj => by cases hj; rfl)
    (fun j hj => by cases hj; rfl)
    (fun j hj => by cases hj; rfl)
  exact h.1

/-- Claim C5 evaluated on its failing input: a payload declaring major
version 3 — for which no deserializer exists — makes the qr command
report success with empty output instead of surfacing an error, even when
both deserializers fail on everything.  In the source, the switch on the
major version has no case besides 1 and 2, and the ParseInt error on
line 166 shadows the outer error variable, so the command writes the nil
output and returns nil. -/
theorem claim5_unknown_major_version_is_silent_success :
    qrDecodeJson (fun _ => none) (fun _ => none)
      (Json.obj [("Version", Json.str "3.0.0")]) = Except.ok [] := rfl

/-! ## Claims about the generate command -/

set_option maxHeartbeats 2000000 in
/-- Any document constructed during a generate run carries exactly the
serial number chosen in step 1 and the timestamp computed in step 2. -/
theorem mkDocument_mem_run (env : GenEnv) (s : String) (t : Nat)
    (h : GEffect.mkDocument s t ∈ (generateRun env).1) :
    chooseSerial env.serialNumber env.entropy = Except.ok s ∧
    computeTimestamp env.now env.p1 env.p2 env.p3 env.date = Except.ok t := by
  simp only [generateRun] at h
  repeat' split at h
  all_goals simp_all [List.mem_append]

set_option maxHeartbeats 2000000 in
/-- Any plaintext handed to the encryption primitive during a generate
run is the minimizing re-encoding of the JSON value decoded from the
input file. -/
theorem encryptData_mem_run (env : GenEnv) (pt : List Nat)
    (h : GEffect.encryptData pt ∈ (generateRun env).1) :
    ∃ raw m, env.inFile = some raw ∧ env.decodeJson raw = some m ∧
      env.encodeJson m = some pt := by
  simp only [generateRun] at h
  repeat' split at h
  all_goals simp_all [List.mem_append]

set_option maxHeartbeats 2000000 in
/-- Claim C6: when no date is supplied, every document built by generate
carries the clock reading of the invocation as its timestamp; when a date
is supplied and none of the three accepted layouts parses it, generate
exits with code 1 and no document is ever built, instead of substituting
a default time. -/
theorem claim6_default_timestamp_and_unparsable_date_fatal (env : GenEnv) :
    (env.date = "" → ∀ s t, GEffect.mkDocument s t ∈ (generateRun env).1 →
      t = env.now) ∧
    (env.date ≠ "" → env.p1 env.date = none → env.p2 env.date = none →
      env.p3 env.date = none →
      (generateRun env).2 = GenOutcome.exit 1 ∧
      (∀ s t, GEffect.mkDocument s t ∉ (generateRun env).1)) := by
  constructor
  · intro hdate s t hmem
    obtain ⟨hs, ht⟩ := mkDocument_mem_run env s t hmem
    have hts : computeTimestamp env.now env.p1 env.p2 env.p3 env.date =
        Except.ok env.now := by simp [computeTimestamp, hdate]
    exact (Except.ok.inj (hts.symm.trans ht)).symm
  · intro hdate hp1 hp2 hp3
    have hts : computeTimestamp env.now env.p1 env.p2 env.p3 env.date =
        Except.error () := by simp [computeTimestamp, hdate, hp1, hp2, hp3]
    simp only [generateRun]
    repeat' split
    all_goals simp_all [List.mem_append]

/-- Concrete instance of claim C6: a date no accepted layout parses makes
generate exit with code 1. -/
theorem claim6_default_timestamp_and_unparsable_date_fatal_witness :
    (generateRun envBadDate).2 = GenOutcome.exit 1 :=
  ((claim6_default_timestamp_and_unparsable_date_fatal envBadDate).2
    (by decide) rfl rfl rfl).1

set_option maxHeartbeats 2000000 in
/-- Claim C7: a user-supplied serial number is the one carried, unchanged,
by any document generate builds; when none is supplied, the document
carries a freshly generated 6-character serial; and when none is supplied
while the random source is unavailable, generate exits with code 1,
encrypting nothing and building no document — it never continues with a
weaker source or an empty serial. -/
theorem claim7_serial_generation_and_entropy_failure (env : GenEnv) :
    (env.serialNumber ≠ "" →
      ∀ s t, GEffect.mkDocument s t ∈ (generateRun env).1 →
        s = env.serialNumber) ∧
    (env.serialNumber = "" →
      ∀ s t, GEffect.mkDocument s t ∈ (generateRun env).1 → s.length = 6) ∧
    (env.serialNumber = "" → env.entropy = none →
      (generateRun env).2 = GenOutcome.exit 1 ∧
      (∀ pt, GEffect.encryptData pt ∉ (generateRun env).1) ∧
      (∀ s t, GEffect.mkDocument s t ∉ (generateRun env).1)) := by
  refine ⟨?_, ?_, ?_⟩
  · intro hsn s t hmem
    obtain ⟨hs, ht⟩ := mkDocument_mem_run env s t hmem
    have hcs : chooseSerial env.serialNumber env.entropy =
        Except.ok env.serialNumber := by simp [chooseSerial, hsn]
    exact (Except.ok.inj (hcs.symm.trans hs)).symm
  · intro hsn s t hmem
    obtain ⟨hs, ht⟩ := mkDocument_mem_run env s t hmem
    have hcs : chooseSerial env.serialNumber env.entropy =
        generateSerial 6 env.entropy := by simp [chooseSerial, hsn]
    exact generateSerial_ok_length env.entropy s (hcs.symm.trans hs)
  · intro hsn hent
    have hcs : chooseSerial env.serialNumber env.entropy = Except.error () := by
      simp [chooseSerial, hsn, hent, generateSerial]
    simp only [generateRun]
    repeat' split
    all_goals simp_all [List.mem_append]

/-- Concrete instance of claim C7: with no serial supplied and an
unreadable random source, generate exits with code 1. -/
theorem claim7_serial_generation_and_entropy_failure_witness :
    (generateRun envNoEntropy).2 = GenOutcome.exit 1 :=
  ((claim7_serial_generation_and_entropy_failure envNoEntropy).2.2 rfl rfl).1

set_option maxHeartbeats 2000000 in
/-- Claim C8: when the two interactively entered passphrases differ,
generate exits with code 1 without ever calling the encryption primitive,
without opening (or truncating) the output file and without writing any
output, so a passphrase mismatch leaves no output behind. -/
theorem claim8_passphrase_mismatch_aborts_before_encryption
    (env : GenEnv) (p q : String)
    (h1 : env.pass1 = some p) (h2 : env.pass2 = some q) (hne : p ≠ q) :
    (generateRun env).2 = GenOutcome.exit 1 ∧
    (∀ pt, GEffect.encryptData pt ∉ (generateRun env).1) ∧
    (∀ b, GEffect.openOutput b ∉ (generateRun env).1) ∧
    (∀ c, GEffect.writeOutput c ∉ (generateRun env).1) := by
  simp only [generateRun]
  repeat' split
  all_goals simp_all [List.mem_append]

/-- Concrete instance of claim C8: differing passphrases make generate
exit with code 1. -/
theorem claim8_passphrase_mismatch_aborts_before_encryption_witness :
    (generateRun envPassMismatch).2 = GenOutcome.exit 1 :=
  (claim8_passphrase_mismatch_aborts_before_encryption envPassMismatch
    "pw one" "pw two" rfl rfl (by decide)).1

set_option maxHeartbeats 2000000 in
/-- Claim C9: input bytes the JSON decoder rejects make generate exit
with code 1 before the passphrase prompt and before any encryption; and
whatever generate encrypts is exactly the minimizing re-encoding of the
decoded JSON value — the raw input bytes themselves are never encrypted
unless the re-encoding happens to coincide with them. -/
theorem claim9_json_decode_gates_encryption (env : GenEnv) :
    (∀ raw, env.inFile = some raw → env.decodeJson raw = none →
      (generateRun env).2 = GenOutcome.exit 1 ∧
      GEffect.promptPassphrase ∉ (generateRun env).1 ∧
      (∀ pt, GEffect.encryptData pt ∉ (generateRun env).1)) ∧
    (∀ raw m pt, env.inFile = some raw → env.decodeJson raw = some m →
      GEffect.encryptData pt ∈ (generateRun env).1 →
      env.encodeJson m = some pt) ∧
    (∀ raw m, env.inFile = some raw → env.decodeJson raw = some m →
      env.encodeJson m ≠ some raw →
      GEffect.encryptData raw ∉ (generateRun env).1) := by
  refine ⟨?_, ?_, ?_⟩
  · intro raw hin hdec
    simp only [generateRun]
    repeat' split
    all_goals simp_all [List.mem_append]
  · intro raw m pt hin hdec hmem
    obtain ⟨raw2, m2, hr1, hr2, hr3⟩ := encryptData_mem_run env pt hmem
    rw [hin] at hr1
    obtain rfl := (Option.some.inj hr1).symm
    rw [hdec] at hr2
    obtain rfl := (Option.some.inj hr2).symm
    exact hr3
  · intro raw m hin hdec hne hmem
    obtain ⟨raw2, m2, hr1, hr2, hr3⟩ := encryptData_mem_run env raw hmem
    rw [hin] at hr1
    obtain rfl := (Option.some.inj hr1).symm
    rw [hdec] at hr2
    obtain rfl := (Option.some.inj hr2).symm
    exact hne hr3

/-- Concrete instance of claim C9: input bytes that fail JSON decoding
make generate exit with code 1. -/
theorem claim9_json_decode_gates_encryption_witness :
    (generateRun envBadJson).2 = GenOutcome.exit 1 :=
  ((claim9_json_decode_gates_encryption envBadJson).1 [10, 11] rfl rfl).1

set_option maxHeartbeats 2000000 in
/-- Claim C10: when the output file already exists and the force flag is
not set, generate exits with code 1 before reading the input file,
leaving the existing output untouched (the file is neither opened, nor
truncated, nor written); the output file, whenever it is opened at all,
is opened in truncating mode; and with the force flag set a completed run
over an existing file does open it for truncation and write it. -/
theorem claim10_existing_output_needs_force (env : GenEnv) :
    (env.outFileExists = true → env.force = false →
      (generateRun env).2 = GenOutcome.exit 1 ∧
      GEffect.readInput ∉ (generateRun env).1 ∧
      (∀ b, GEffect.openOutput b ∉ (generateRun env).1) ∧
      (∀ c, GEffect.writeOutput c ∉ (generateRun env).1)) ∧
    (∀ b, GEffect.openOutput b ∈ (generateRun env).1 → b = true) ∧
    (env.outFileExists = true → env.force = true → env.outFileName ≠ "" →
      env.outFileName ≠ "-" → (generateRun env).2 = GenOutcome.done →
      GEffect.openOutput true ∈ (generateRun env).1 ∧
      ∃ c, GEffect.writeOutput c ∈ (generateRun env).1) := by
  refine ⟨?_, ?_, ?_⟩
  · intro hex hfo
    simp only [generateRun]
    simp [hex, hfo]
  · intro b hmem
    simp only [generateRun] at hmem
    repeat' split at hmem
    all_goals simp_all [List.mem_append]
  · intro hex hfo hn1 hn2 hdone
    simp only [generateRun] at hdone ⊢
    repeat' split at hdone
    all_goals simp_all [List.mem_append]

/-- Concrete instance of claim C10: a completed forced run over an
existing output file opens it in truncating mode. -/
theorem claim10_existing_output_needs_force_witness :
    GEffect.openOutput true ∈ (generateRun envForced).1 :=
  ((claim10_existing_output_needs_force envForced).2.2 rfl rfl
    (by decide) (by decide) (by decide)).1

end PaperCrypt
